import Mathlib

/-!
The `system status` command of mesheryctl: a shallow embedding of `statusCmd.RunE`.

Source: `mesheryctl/internal/cli/root/system/status.go`.

The handler is effectful: it calls collaborators (configuration loading,
context resolution, a `docker-compose` process, the Kubernetes client) and
writes to the log and to a table printer.  The embedding passes the state
explicitly: a `World` holds what every collaborator answers, and `RunE`
returns the error value of the handler together with the trace of the
effects it performed, in program order.

Go strings are byte sequences; they are embedded as lists of bytes.
-/

namespace Mesheryctl

/-! ## Go values -/

/-- Go `string`: an immutable sequence of bytes. -/
abbrev GoString := List UInt8

/-- The bytes (UTF-8) of a string literal of the source. -/
def lit (s : String) : GoString := s.data.flatMap String.utf8EncodeChar

/-- Go `int32`. -/
abbrev int32 := { i : Int // -2147483648 ≤ i ∧ i ≤ 2147483647 }

/-- Go `strings.Contains(s, substr)`: `substr` occurs at some offset of `s`. -/
def Contains : GoString → GoString → Bool
  | [], substr => substr.isPrefixOf []
  | c :: s, substr => substr.isPrefixOf (c :: s) || Contains s substr

/-- Go `error` values (non-nil).  `root` is an error without a `Cause`
method; `withMessage` is what `errors.Wrap` of `github.com/pkg/errors`
builds (the recorded stack is not modelled). -/
inductive GoError where
  | root (msg : GoString)
  | withMessage (cause : GoError) (msg : GoString)
  deriving DecidableEq, Repr

/-- `errors.Wrap(err, message)` for a non-nil `err`. -/
def Wrap (err : GoError) (message : GoString) : GoError :=
  GoError.withMessage err message

/-- `errors.Cause(err)`: follow the `Cause` chain to its end. -/
def Cause : GoError → GoError
  | GoError.root msg => GoError.root msg
  | GoError.withMessage cause _ => Cause cause

/-- The `Error()` text: `withMessage` renders as `msg + ": " + cause.Error()`. -/
def GoError.Error : GoError → GoString
  | GoError.root msg => msg
  | GoError.withMessage cause msg => msg ++ lit ": " ++ cause.Error

/-! ## `fmt.Sprintf` with the `%d` verb -/

/-- The byte of a decimal digit, `byte('0' + d)`. -/
def digitByte (d : Nat) : UInt8 := UInt8.ofNat (48 + d)

/-- The digit loop of Go's integer formatting: while `u >= 10` emit the last
digit in front of what is already written and continue with `u / 10`; then
emit the leading digit. -/
def fmtUnsigned (u : Nat) (buf : GoString) : GoString :=
  if h : 10 ≤ u then fmtUnsigned (u / 10) (digitByte (u % 10) :: buf)
  else digitByte u :: buf
termination_by u
decreasing_by omega

/-- The verb `%d` on a signed integer: a minus sign for a negative value, then
the digits of the magnitude. -/
def fmtInteger (i : Int) : GoString :=
  if i < 0 then 45 :: fmtUnsigned i.natAbs [] else fmtUnsigned i.natAbs []

/-- `fmt.Sprintf(format, args...)` for formats made of literal bytes and `%d`
verbs with integer operands (the only formats the handler uses). -/
def Sprintf : GoString → List Int → GoString
  | [], _ => []
  | [c], _ => [c]
  | c :: d :: rest, args =>
    if c = 37 ∧ d = 100 then
      match args with
      | a :: args => fmtInteger a ++ Sprintf rest args
      | [] => lit "%!d(MISSING)" ++ Sprintf rest []
    else c :: Sprintf (d :: rest) args

/-! ## Configuration -/

/-- A context of the mesheryctl configuration (`config.Context`); the handler
reads its platform and its endpoint. -/
structure Context where
  Endpoint : GoString
  Platform : GoString
  deriving DecidableEq, Repr

/-- The mesheryctl configuration (`config.MesheryCtlConfig`): the named
contexts (a Go map) and the name of the current one. -/
structure MesheryCtlConfig where
  Contexts : List (GoString × Context)
  CurrentContext : GoString
  deriving DecidableEq, Repr

/-- Go map indexing `m[key]`: the zero value when the key is absent. -/
def MesheryCtlConfig.index (m : List (GoString × Context)) (key : GoString) : Context :=
  match m.lookup key with
  | some c => c
  | none => { Endpoint := [], Platform := [] }

/-- The expression `mctlCfg.Contexts[mctlCfg.CurrentContext].Endpoint`. -/
def MesheryCtlConfig.endpoint (mctlCfg : MesheryCtlConfig) : GoString :=
  (MesheryCtlConfig.index mctlCfg.Contexts mctlCfg.CurrentContext).Endpoint

/-! ## Kubernetes objects -/

/-- The integer fields of `appsv1.DeploymentStatus`. -/
structure DeploymentStatus where
  Replicas : int32
  UpdatedReplicas : int32
  ReadyReplicas : int32
  AvailableReplicas : int32
  UnavailableReplicas : int32
  deriving DecidableEq

/-- An `appsv1.Deployment`: name, creation timestamp (nanoseconds) and status. -/
structure Deployment where
  Name : GoString
  CreationTimestamp : Int
  Status : DeploymentStatus
  deriving DecidableEq

/-- The integer fields of `appsv1.StatefulSetStatus`. -/
structure StatefulSetStatus where
  Replicas : int32
  ReadyReplicas : int32
  CurrentReplicas : int32
  UpdatedReplicas : int32
  AvailableReplicas : int32
  deriving DecidableEq

/-- An `appsv1.StatefulSet`: name, creation timestamp (nanoseconds) and status. -/
structure StatefulSet where
  Name : GoString
  CreationTimestamp : Int
  Status : StatefulSetStatus
  deriving DecidableEq

/-! ## The world and the trace -/

/-- What the collaborators of the handler answer, and the constants and
library functions it takes from other packages. -/
structure World where
  /-- The constant `utils.DockerComposeFile`. -/
  DockerComposeFile : GoString
  /-- The constant `utils.MesheryNamespace`. -/
  MesheryNamespace : GoString
  /-- The helper `utils.SystemError`, which formats a message. -/
  SystemError : GoString → GoString
  /-- The call `config.GetMesheryCtl(viper.GetViper())`. -/
  GetMesheryCtl : Except GoError MesheryCtlConfig
  /-- The call `mctlCfg.SetCurrentContext(tempContext)`: the configuration
  as the call leaves it, and the resolved context. -/
  SetCurrentContext : MesheryCtlConfig → GoString → Except GoError (MesheryCtlConfig × Context)
  /-- Running `exec.Command(name, args...).Output()`. -/
  Output : GoString → List GoString → Except GoError GoString
  /-- The call `meshkitkube.New(kubeconfig)`. -/
  New : GoString → Except GoError Unit
  /-- Listing the deployments of a namespace. -/
  ListDeployments : GoString → Except GoError (List Deployment)
  /-- Listing the stateful sets of a namespace. -/
  ListStatefulSets : GoString → Except GoError (List StatefulSet)
  /-- The result of the k-th call of `time.Since`, on its argument. -/
  Since : Nat → Int → Int
  /-- The method `Duration.Round`. -/
  Round : Int → Int → Int
  /-- The method `Duration.String`. -/
  DurationString : Int → GoString

/-- The constant `time.Second`, in nanoseconds. -/
def Second : Int := 1000000000

/-- A call of a collaborator, with its arguments. -/
inductive Call where
  | GetMesheryCtl
  | SetCurrentContext (tempContext : GoString)
  | Output (name : GoString) (args : List GoString)
  | New (kubeconfig : GoString)
  | ListDeployments (ns : GoString)
  | ListStatefulSets (ns : GoString)
  deriving DecidableEq

/-- An effect of the handler: a collaborator call with the error it returned
(`none` for nil), a `log.Info` line, or a `utils.PrintToTable` call. -/
inductive Event where
  | call (c : Call) (err : Option GoError)
  | Info (msg : GoString)
  | PrintToTable (header : List GoString) (data : List (List GoString))
  deriving DecidableEq

/-- The handler's result: the effects in program order and the returned
error (`none` is nil). -/
structure Outcome where
  trace : List Event
  err : Option GoError
  deriving DecidableEq

/-! ## The handler -/

/-- The header row given to `utils.PrintToTable`. -/
def tableHeader : List GoString :=
  [lit "Name", lit "Ready", lit "Up-to-date", lit "Available", lit "Age"]

/-- The message logged when the marker is absent from the process output. -/
def notRunningMessage : GoString :=
  lit "Meshery is not running, run `mesheryctl system start` to start Meshery"

/-- The endpoint line, `"Meshery endpoint is " + endpoint`. -/
def endpointMessage (mctlCfg : MesheryCtlConfig) : GoString :=
  lit "Meshery endpoint is " ++ mctlCfg.endpoint

/-- The body of the loop over the deployments: the row appended to `data`.
`tick` numbers the calls of `time.Since` in this run. -/
def deploymentRow (w : World) (tick : Nat) (deployment : Deployment) : List GoString :=
  let age := w.Round (w.Since tick deployment.CreationTimestamp) Second
  let deploymentStatus := deployment.Status
  let name := deployment.Name
  let ready := Sprintf (lit "%d/%d") [deploymentStatus.ReadyReplicas.val, deploymentStatus.Replicas.val]
  let updated := Sprintf (lit "%d") [deploymentStatus.UpdatedReplicas.val]
  let available := Sprintf (lit "%d") [deploymentStatus.AvailableReplicas.val]
  let ageS := w.DurationString age
  [name, ready, updated, available, ageS]

/-- The body of the loop over the stateful sets: the row appended to `data`. -/
def statefulsetRow (w : World) (tick : Nat) (statefulset : StatefulSet) : List GoString :=
  let name := statefulset.Name
  let age := w.Round (w.Since tick statefulset.CreationTimestamp) Second
  let statefulsetStatus := statefulset.Status
  let ready := Sprintf (lit "%d/%d") [statefulsetStatus.ReadyReplicas.val, statefulsetStatus.Replicas.val]
  let updated := Sprintf (lit "%d") [statefulsetStatus.UpdatedReplicas.val]
  let available := Sprintf (lit "%d") [statefulsetStatus.CurrentReplicas.val]
  let ageS := w.DurationString age
  [name, ready, updated, available, ageS]

/-- A `for _, x := range items` loop whose body is `data = append(data, row x)`,
on the state made of the clock tick and `data`. -/
def rangeAppend {α : Type} (row : Nat → α → List GoString) :
    List α → Nat × List (List GoString) → Nat × List (List GoString)
  | [], st => st
  | x :: items, (tick, data) => rangeAppend row items (tick + 1, data ++ [row tick x])

/-- The case `"docker"` of the switch. -/
def dockerCase (w : World) (mctlCfg : MesheryCtlConfig) : Outcome :=
  let name := lit "docker-compose"
  let args := [lit "-f", w.DockerComposeFile, lit "ps"]
  match w.Output name args with
  | Except.error err =>
    { trace := [Event.call (Call.Output name args) (some err)],
      err := some (Wrap err (w.SystemError (lit "failed to get Meshery status"))) }
  | Except.ok outputString =>
    if Contains outputString (lit "meshery") then
      { trace := [Event.call (Call.Output name args) none,
                  Event.Info outputString,
                  Event.Info (endpointMessage mctlCfg)],
        err := none }
    else
      { trace := [Event.call (Call.Output name args) none,
                  Event.Info notRunningMessage],
        err := none }

/-- The case `"kubernetes"` of the switch. -/
def kubernetesCase (w : World) (mctlCfg : MesheryCtlConfig) : Outcome :=
  match w.New (lit "") with
  | Except.error err =>
    { trace := [Event.call (Call.New (lit "")) (some err)], err := some err }
  | Except.ok _ =>
    match w.ListDeployments w.MesheryNamespace with
    | Except.error err =>
      { trace := [Event.call (Call.New (lit "")) none,
                  Event.call (Call.ListDeployments w.MesheryNamespace) (some err)],
        err := some err }
    | Except.ok deploymentList =>
      let st := rangeAppend (deploymentRow w) deploymentList (0, [])
      match w.ListStatefulSets w.MesheryNamespace with
      | Except.error err =>
        { trace := [Event.call (Call.New (lit "")) none,
                    Event.call (Call.ListDeployments w.MesheryNamespace) none,
                    Event.call (Call.ListStatefulSets w.MesheryNamespace) (some err)],
          err := some err }
      | Except.ok statefulsetList =>
        let st := rangeAppend (statefulsetRow w) statefulsetList st
        { trace := [Event.call (Call.New (lit "")) none,
                    Event.call (Call.ListDeployments w.MesheryNamespace) none,
                    Event.call (Call.ListStatefulSets w.MesheryNamespace) none,
                    Event.PrintToTable tableHeader st.2,
                    Event.Info (endpointMessage mctlCfg)],
          err := none }

/-- The handler `statusCmd.RunE`; `tempContext` is the package variable set
by the `-c` flag. -/
def RunE (w : World) (tempContext : GoString) : Outcome :=
  match w.GetMesheryCtl with
  | Except.error err =>
    { trace := [Event.call Call.GetMesheryCtl (some err)],
      err := some (Wrap err (lit "error processing config")) }
  | Except.ok mctlCfg0 =>
    match w.SetCurrentContext mctlCfg0 tempContext with
    | Except.error err =>
      { trace := [Event.call Call.GetMesheryCtl none,
                  Event.call (Call.SetCurrentContext tempContext) (some err)],
        err := some err }
    | Except.ok (mctlCfg, currCtx) =>
      let before := [Event.call Call.GetMesheryCtl none,
                     Event.call (Call.SetCurrentContext tempContext) none]
      let currPlatform := currCtx.Platform
      if currPlatform = lit "docker" then
        let r := dockerCase w mctlCfg
        { trace := before ++ r.trace, err := r.err }
      else if currPlatform = lit "kubernetes" then
        let r := kubernetesCase w mctlCfg
        { trace := before ++ r.trace, err := r.err }
      else
        { trace := before, err := none }

/-! ## Reading a trace -/

/-- The event is output of the handler: a log line or a printed table. -/
def Event.isOutput : Event → Bool
  | Event.call _ _ => false
  | Event.Info _ => true
  | Event.PrintToTable _ _ => true

/-- The output events of a trace, in order. -/
def outputs (t : List Event) : List Event := t.filter Event.isOutput

/-- The tables printed in a trace, as (header, data), in order. -/
def tables (t : List Event) : List (List GoString × List (List GoString)) :=
  t.filterMap fun e =>
    match e with
    | Event.PrintToTable header data => some (header, data)
    | _ => none

/-- The collaborators, without the arguments of a call. -/
inductive Collaborator where
  | GetMesheryCtl
  | SetCurrentContext
  | Output
  | New
  | ListDeployments
  | ListStatefulSets
  deriving DecidableEq, Repr

/-- The collaborator a call goes to. -/
def Call.collaborator : Call → Collaborator
  | Call.GetMesheryCtl => Collaborator.GetMesheryCtl
  | Call.SetCurrentContext _ => Collaborator.SetCurrentContext
  | Call.Output _ _ => Collaborator.Output
  | Call.New _ => Collaborator.New
  | Call.ListDeployments _ => Collaborator.ListDeployments
  | Call.ListStatefulSets _ => Collaborator.ListStatefulSets

/-- The collaborators called in a trace, in order. -/
def calls (t : List Event) : List Collaborator :=
  t.filterMap fun e =>
    match e with
    | Event.call c _ => some c.collaborator
    | _ => none

/-- The collaborators whose call failed in a trace, in order. -/
def failedCalls (t : List Event) : List Collaborator :=
  t.filterMap fun e =>
    match e with
    | Event.call c (some _) => some c.collaborator
    | _ => none

/-- The collaborator belongs to the Kubernetes client. -/
def Collaborator.isKubernetes : Collaborator → Bool
  | Collaborator.New => true
  | Collaborator.ListDeployments => true
  | Collaborator.ListStatefulSets => true
  | _ => false

/-! ## Decimal numerals, as the specification words them -/

/-- The decimal rendering of a natural number: its base-10 digits, most
significant first, and the single digit 0 for zero. -/
def decimalNat (n : Nat) : GoString :=
  if n = 0 then [digitByte 0] else ((Nat.digits 10 n).reverse).map digitByte

/-- The decimal rendering of an integer: a minus sign in front of the
rendering of the magnitude when the integer is negative. -/
def decimal (i : Int) : GoString :=
  if i < 0 then 45 :: decimalNat i.natAbs else decimalNat i.natAbs

/-- Read a decimal numeral back: the value of its digits. -/
def readNat (s : GoString) : Nat :=
  s.foldl (fun acc b => 10 * acc + (b.toNat - 48)) 0

/-- Read a signed decimal numeral back. -/
def readInt : GoString → Int
  | 45 :: s => -(readNat s : Int)
  | s => (readNat s : Int)

/-- Read a ready field back: the numeral before the first slash and the
numeral after it. -/
def readReady (s : GoString) : Int × Int :=
  (readInt (s.takeWhile (fun b => b != 47)), readInt ((s.dropWhile (fun b => b != 47)).drop 1))


/-! ## The table, as the specification words it -/

/-- The rows of the table: one row for each deployment, in the order of the
list, then one row for each stateful set, in the order of the list; the k-th
row is built at the k-th reading of the clock. -/
def tableData (w : World) (ds : List Deployment) (ss : List StatefulSet) : List (List GoString) :=
  List.zipWith (deploymentRow w) (List.range' 0 ds.length) ds
    ++ List.zipWith (statefulsetRow w) (List.range' ds.length ss.length) ss

/-! ## Sample worlds -/

/-- A configuration with a docker context, a kubernetes context and a context
whose platform is misspelt. -/
def sampleConfig : MesheryCtlConfig :=
  { Contexts :=
      [(lit "local", { Endpoint := lit "http://localhost:9081", Platform := lit "docker" }),
       (lit "cluster", { Endpoint := lit "http://10.0.0.7:9081", Platform := lit "kubernetes" }),
       (lit "typo", { Endpoint := lit "http://10.0.0.7:9081", Platform := lit "Kubernetes" })],
    CurrentContext := lit "local" }

/-- A context resolution: a non-empty name replaces the current context, and
the current context has to be one of the configured contexts. -/
def sampleSetCurrentContext (cfg : MesheryCtlConfig) (tempContext : GoString) :
    Except GoError (MesheryCtlConfig × Context) :=
  let cfg1 : MesheryCtlConfig :=
    if tempContext = [] then cfg else { cfg with CurrentContext := tempContext }
  match cfg1.Contexts.lookup cfg1.CurrentContext with
  | some ctx => Except.ok (cfg1, ctx)
  | none => Except.error (GoError.root (lit "context does not exist"))

/-- A deployment with all replicas ready. -/
def sampleMeshery : Deployment :=
  { Name := lit "meshery", CreationTimestamp := 0,
    Status := { Replicas := ⟨1, by decide⟩, UpdatedReplicas := ⟨1, by decide⟩,
                ReadyReplicas := ⟨1, by decide⟩, AvailableReplicas := ⟨1, by decide⟩,
                UnavailableReplicas := ⟨0, by decide⟩ } }

/-- A deployment with no replica ready. -/
def sampleIstio : Deployment :=
  { Name := lit "meshery-istio", CreationTimestamp := 5,
    Status := { Replicas := ⟨2, by decide⟩, UpdatedReplicas := ⟨2, by decide⟩,
                ReadyReplicas := ⟨0, by decide⟩, AvailableReplicas := ⟨0, by decide⟩,
                UnavailableReplicas := ⟨2, by decide⟩ } }

/-- A stateful set. -/
def sampleBroker : StatefulSet :=
  { Name := lit "meshery-broker", CreationTimestamp := 7,
    Status := { Replicas := ⟨1, by decide⟩, ReadyReplicas := ⟨1, by decide⟩,
                CurrentReplicas := ⟨1, by decide⟩, UpdatedReplicas := ⟨1, by decide⟩,
                AvailableReplicas := ⟨0, by decide⟩ } }

/-- A world in which every collaborator succeeds. -/
def sampleWorld : World :=
  { DockerComposeFile := lit "/home/user/.meshery/meshery.yaml",
    MesheryNamespace := lit "meshery",
    SystemError := fun msg => msg ++ lit " (see the system command reference)",
    GetMesheryCtl := Except.ok sampleConfig,
    SetCurrentContext := sampleSetCurrentContext,
    Output := fun _ _ => Except.ok (lit "meshery_meshery_1   Up   0.0.0.0:9081->8080/tcp"),
    New := fun _ => Except.ok (),
    ListDeployments := fun _ => Except.ok [sampleMeshery, sampleIstio],
    ListStatefulSets := fun _ => Except.ok [sampleBroker],
    Since := fun k t => 1000000000 * (60 + k) - t,
    Round := fun d _ => d,
    DurationString := fun _ => lit "1m0s" }

/-- The sample world with a docker-compose process that lists nothing. -/
def stoppedWorld : World :=
  { sampleWorld with Output := fun _ _ => Except.ok (lit "Name   Command   State   Ports") }

/-- The sample world with a docker-compose process that fails. -/
def composeFailsWorld : World :=
  { sampleWorld with Output := fun _ _ => Except.error (GoError.root (lit "exit status 1")) }

/-- The sample world with a cluster client that cannot be built. -/
def noClientWorld : World :=
  { sampleWorld with New := fun _ => Except.error (GoError.root (lit "no kubeconfig")) }

/-- The sample world with a failing list of the stateful sets. -/
def statefulSetsFailWorld : World :=
  { sampleWorld with
    ListStatefulSets := fun _ => Except.error (GoError.root (lit "connection refused")) }

/-- The sample world with a configuration load that fails with an error
which already carries a cause: a message wrapped around a root error. -/
def wrappedConfigFailWorld : World :=
  { sampleWorld with
    GetMesheryCtl :=
      Except.error
        (GoError.withMessage (GoError.root (lit "no such file")) (lit "reading config")) }

/-! ## Lemmas on strings and numerals -/

theorem Contains_iff_occurs (s substr : GoString) :
    Contains s substr = true ↔ substr <:+: s := by
  induction s with
  | nil =>
    rw [Contains, List.isPrefixOf_iff_prefix, List.infix_nil, List.prefix_nil]
  | cons c s ih =>
    rw [Contains, Bool.or_eq_true, List.isPrefixOf_iff_prefix, ih, List.infix_cons_iff]

theorem digitByte_toNat (d : Nat) (h : d < 10) : (digitByte d).toNat = 48 + d := by
  interval_cases d <;> rfl

theorem decimalNat_of_lt (u : Nat) (h : u < 10) : decimalNat u = [digitByte u] := by
  interval_cases u <;> simp [decimalNat]

theorem decimalNat_step (u : Nat) (h : 10 ≤ u) :
    decimalNat u = decimalNat (u / 10) ++ [digitByte (u % 10)] := by
  have h1 : u ≠ 0 := by omega
  have h2 : u / 10 ≠ 0 := by omega
  have h3 : Nat.digits 10 u = (u % 10) :: Nat.digits 10 (u / 10) :=
    Nat.digits_def' (by decide) (by omega)
  simp [decimalNat, h1, h2, h3]

theorem fmtUnsigned_eq (u : Nat) : ∀ buf : GoString, fmtUnsigned u buf = decimalNat u ++ buf := by
  induction u using Nat.strong_induction_on with
  | _ u ih =>
    intro buf
    rw [fmtUnsigned]
    split
    · next h =>
      rw [ih (u / 10) (by omega), decimalNat_step u h]
      simp
    · next h =>
      rw [decimalNat_of_lt u (by omega)]
      rfl

theorem fmtInteger_eq_decimal (i : Int) : fmtInteger i = decimal i := by
  simp [fmtInteger, decimal, fmtUnsigned_eq]

theorem readNat_snoc (s : GoString) (b : UInt8) :
    readNat (s ++ [b]) = 10 * readNat s + (b.toNat - 48) := by
  simp [readNat, List.foldl_append]

theorem readNat_decimalNat (u : Nat) : readNat (decimalNat u) = u := by
  induction u using Nat.strong_induction_on with
  | _ u ih =>
    by_cases h : 10 ≤ u
    · rw [decimalNat_step u h, readNat_snoc, ih (u / 10) (by omega),
        digitByte_toNat _ (Nat.mod_lt _ (by decide))]
      omega
    · rw [decimalNat_of_lt u (by omega)]
      have := digitByte_toNat u (by omega)
      simp [readNat, this]

/-- Every byte of a decimal numeral of a natural number is a digit. -/
theorem decimalNat_digits (u : Nat) : ∀ b ∈ decimalNat u, 48 ≤ b.toNat ∧ b.toNat ≤ 57 := by
  induction u using Nat.strong_induction_on with
  | _ u ih =>
    intro b hb
    by_cases h : 10 ≤ u
    · rw [decimalNat_step u h, List.mem_append] at hb
      rcases hb with hb | hb
      · exact ih (u / 10) (by omega) b hb
      · rw [List.mem_singleton] at hb
        have := digitByte_toNat (u % 10) (Nat.mod_lt _ (by decide))
        rw [hb]; omega
    · rw [decimalNat_of_lt u (by omega), List.mem_singleton] at hb
      have := digitByte_toNat u (by omega)
      rw [hb]; omega

theorem decimalNat_ne_nil (u : Nat) : decimalNat u ≠ [] := by
  by_cases h : 10 ≤ u
  · rw [decimalNat_step u h]; simp
  · rw [decimalNat_of_lt u (by omega)]; simp

theorem readInt_decimal (i : Int) : readInt (decimal i) = i := by
  unfold decimal
  split
  · next h =>
    simp only [readInt, readNat_decimalNat]
    omega
  · next h =>
    have hd := decimalNat_digits i.natAbs
    have hr := readNat_decimalNat i.natAbs
    cases hs : decimalNat i.natAbs with
    | nil => exact absurd hs (decimalNat_ne_nil _)
    | cons b t =>
      rw [hs] at hd hr
      have hb := hd b (List.mem_cons_self _ _)
      have hne : b ≠ 45 := by
        intro hb45
        rw [hb45] at hb
        exact absurd hb.1 (by decide)
      unfold readInt
      split
      · next heq => simp at heq; exact absurd heq.1 hne
      · rw [hr]; omega

/-- No byte of a decimal numeral is a slash. -/
theorem decimal_no_slash (i : Int) : ∀ b ∈ decimal i, (b != 47) = true := by
  intro b hb
  have key : b.toNat = 45 ∨ (48 ≤ b.toNat ∧ b.toNat ≤ 57) := by
    unfold decimal at hb
    split at hb
    · rcases List.mem_cons.mp hb with hb | hb
      · left; rw [hb]; rfl
      · right; exact decimalNat_digits _ b hb
    · right; exact decimalNat_digits _ b hb
  simp only [bne_iff_ne, ne_eq]
  intro h47
  rw [h47] at key
  revert key
  decide

theorem readReady_decimal (a b : Int) :
    readReady (decimal a ++ 47 :: decimal b) = (a, b) := by
  have h1 : (decimal a ++ 47 :: decimal b).takeWhile (fun x => x != 47) = decimal a := by
    rw [List.takeWhile_append_of_pos (decimal_no_slash a)]
    simp
  have h2 : (decimal a ++ 47 :: decimal b).dropWhile (fun x => x != 47) = 47 :: decimal b := by
    rw [List.dropWhile_append_of_pos (decimal_no_slash a)]
    simp
  simp [readReady, h1, h2, readInt_decimal]


/-! ## Lemmas on the handler -/

theorem rangeAppend_eq {α : Type} (row : Nat → α → List GoString) (items : List α) :
    ∀ (tick : Nat) (data : List (List GoString)),
      rangeAppend row items (tick, data)
        = (tick + items.length, data ++ List.zipWith row (List.range' tick items.length) items) := by
  induction items with
  | nil => intro tick data; simp [rangeAppend]
  | cons x items ih =>
    intro tick data
    rw [rangeAppend, ih]
    simp [List.range'_succ]
    omega

theorem Sprintf_ready (a b : Int) :
    Sprintf (lit "%d/%d") [a, b] = decimal a ++ 47 :: decimal b := by
  have h : Sprintf (lit "%d/%d") [a, b] = fmtInteger a ++ 47 :: (fmtInteger b ++ []) := rfl
  rw [h, fmtInteger_eq_decimal, fmtInteger_eq_decimal, List.append_nil]

theorem Sprintf_d (a : Int) : Sprintf (lit "%d") [a] = decimal a := by
  have h : Sprintf (lit "%d") [a] = fmtInteger a ++ [] := rfl
  rw [h, fmtInteger_eq_decimal, List.append_nil]

/-- The handler's result by cases on what the collaborators answer: one case
for each path through `RunE`. -/
theorem RunE_cases (w : World) (tempContext : GoString) (P : Outcome → Prop)
    (hConfig : ∀ e, w.GetMesheryCtl = Except.error e →
      P { trace := [Event.call Call.GetMesheryCtl (some e)],
          err := some (Wrap e (lit "error processing config")) })
    (hContext : ∀ cfg0 e, w.GetMesheryCtl = Except.ok cfg0 →
      w.SetCurrentContext cfg0 tempContext = Except.error e →
      P { trace := [Event.call Call.GetMesheryCtl none,
                    Event.call (Call.SetCurrentContext tempContext) (some e)],
          err := some e })
    (hSwitch : ∀ cfg0 cfg ctx, w.GetMesheryCtl = Except.ok cfg0 →
      w.SetCurrentContext cfg0 tempContext = Except.ok (cfg, ctx) →
      P (if ctx.Platform = lit "docker" then
          { trace := [Event.call Call.GetMesheryCtl none,
                      Event.call (Call.SetCurrentContext tempContext) none]
                      ++ (dockerCase w cfg).trace,
            err := (dockerCase w cfg).err }
        else if ctx.Platform = lit "kubernetes" then
          { trace := [Event.call Call.GetMesheryCtl none,
                      Event.call (Call.SetCurrentContext tempContext) none]
                      ++ (kubernetesCase w cfg).trace,
            err := (kubernetesCase w cfg).err }
        else
          { trace := [Event.call Call.GetMesheryCtl none,
                      Event.call (Call.SetCurrentContext tempContext) none],
            err := none })) :
    P (RunE w tempContext) := by
  cases h0 : w.GetMesheryCtl with
  | error e =>
    simp only [RunE, h0]
    exact hConfig e h0
  | ok cfg0 =>
    cases h1 : w.SetCurrentContext cfg0 tempContext with
    | error e =>
      simp only [RunE, h0, h1]
      exact hContext cfg0 e h0 h1
    | ok p =>
      obtain ⟨cfg, ctx⟩ := p
      simp only [RunE, h0, h1]
      exact hSwitch cfg0 cfg ctx h0 h1

/-- The docker case by cases on the process and on the marker. -/
theorem dockerCase_cases (w : World) (cfg : MesheryCtlConfig) (P : Outcome → Prop)
    (hFail : ∀ e,
      w.Output (lit "docker-compose") [lit "-f", w.DockerComposeFile, lit "ps"] = Except.error e →
      P { trace := [Event.call (Call.Output (lit "docker-compose")
                      [lit "-f", w.DockerComposeFile, lit "ps"]) (some e)],
          err := some (Wrap e (w.SystemError (lit "failed to get Meshery status"))) })
    (hUp : ∀ o,
      w.Output (lit "docker-compose") [lit "-f", w.DockerComposeFile, lit "ps"] = Except.ok o →
      lit "meshery" <:+: o →
      P { trace := [Event.call (Call.Output (lit "docker-compose")
                      [lit "-f", w.DockerComposeFile, lit "ps"]) none,
                    Event.Info o, Event.Info (endpointMessage cfg)],
          err := none })
    (hDown : ∀ o,
      w.Output (lit "docker-compose") [lit "-f", w.DockerComposeFile, lit "ps"] = Except.ok o →
      ¬ lit "meshery" <:+: o →
      P { trace := [Event.call (Call.Output (lit "docker-compose")
                      [lit "-f", w.DockerComposeFile, lit "ps"]) none,
                    Event.Info notRunningMessage],
          err := none }) :
    P (dockerCase w cfg) := by
  cases h0 : w.Output (lit "docker-compose") [lit "-f", w.DockerComposeFile, lit "ps"] with
  | error e =>
    simp only [dockerCase, h0]
    exact hFail e h0
  | ok o =>
    by_cases hc : Contains o (lit "meshery") = true
    · simp only [dockerCase, h0, hc, if_true]
      exact hUp o h0 ((Contains_iff_occurs _ _).mp hc)
    · simp only [dockerCase, h0, hc]
      exact hDown o h0 (fun h => hc ((Contains_iff_occurs _ _).mpr h))

/-- The kubernetes case by cases on the client and on the two list calls. -/
theorem kubernetesCase_cases (w : World) (cfg : MesheryCtlConfig) (P : Outcome → Prop)
    (hNew : ∀ e, w.New (lit "") = Except.error e →
      P { trace := [Event.call (Call.New (lit "")) (some e)], err := some e })
    (hDeployments : ∀ e, w.New (lit "") = Except.ok () →
      w.ListDeployments w.MesheryNamespace = Except.error e →
      P { trace := [Event.call (Call.New (lit "")) none,
                    Event.call (Call.ListDeployments w.MesheryNamespace) (some e)],
          err := some e })
    (hStatefulSets : ∀ ds e, w.New (lit "") = Except.ok () →
      w.ListDeployments w.MesheryNamespace = Except.ok ds →
      w.ListStatefulSets w.MesheryNamespace = Except.error e →
      P { trace := [Event.call (Call.New (lit "")) none,
                    Event.call (Call.ListDeployments w.MesheryNamespace) none,
                    Event.call (Call.ListStatefulSets w.MesheryNamespace) (some e)],
          err := some e })
    (hTable : ∀ ds ss, w.New (lit "") = Except.ok () →
      w.ListDeployments w.MesheryNamespace = Except.ok ds →
      w.ListStatefulSets w.MesheryNamespace = Except.ok ss →
      P { trace := [Event.call (Call.New (lit "")) none,
                    Event.call (Call.ListDeployments w.MesheryNamespace) none,
                    Event.call (Call.ListStatefulSets w.MesheryNamespace) none,
                    Event.PrintToTable tableHeader (tableData w ds ss),
                    Event.Info (endpointMessage cfg)],
          err := none }) :
    P (kubernetesCase w cfg) := by
  cases h0 : w.New (lit "") with
  | error e =>
    simp only [kubernetesCase, h0]
    exact hNew e h0
  | ok u =>
    cases h1 : w.ListDeployments w.MesheryNamespace with
    | error e =>
      simp only [kubernetesCase, h0, h1]
      exact hDeployments e h0 h1
    | ok ds =>
      cases h2 : w.ListStatefulSets w.MesheryNamespace with
      | error e =>
        simp only [kubernetesCase, h0, h1, h2]
        exact hStatefulSets ds e h0 h1 h2
      | ok ss =>
        have := hTable ds ss h0 h1 h2
        simp only [kubernetesCase, h0, h1, h2, rangeAppend_eq, List.nil_append, Nat.zero_add]
        exact this

/-- The handler's result by cases on the path taken through it. -/
theorem RunE_paths (w : World) (tc : GoString) (P : Outcome → Prop)
    (hConfig : ∀ e, w.GetMesheryCtl = Except.error e →
      P { trace := [Event.call Call.GetMesheryCtl (some e)],
          err := some (Wrap e (lit "error processing config")) })
    (hContext : ∀ cfg0 e, w.GetMesheryCtl = Except.ok cfg0 →
      w.SetCurrentContext cfg0 tc = Except.error e →
      P { trace := [Event.call Call.GetMesheryCtl none,
                    Event.call (Call.SetCurrentContext tc) (some e)],
          err := some e })
    (hOther : ∀ cfg0 cfg ctx, w.GetMesheryCtl = Except.ok cfg0 →
      w.SetCurrentContext cfg0 tc = Except.ok (cfg, ctx) →
      ctx.Platform ≠ lit "docker" → ctx.Platform ≠ lit "kubernetes" →
      P { trace := [Event.call Call.GetMesheryCtl none,
                    Event.call (Call.SetCurrentContext tc) none],
          err := none })
    (hFail : ∀ cfg0 cfg ctx e, w.GetMesheryCtl = Except.ok cfg0 →
      w.SetCurrentContext cfg0 tc = Except.ok (cfg, ctx) →
      ctx.Platform = lit "docker" →
      w.Output (lit "docker-compose") [lit "-f", w.DockerComposeFile, lit "ps"] = Except.error e →
      P { trace := [Event.call Call.GetMesheryCtl none,
                    Event.call (Call.SetCurrentContext tc) none,
                    Event.call (Call.Output (lit "docker-compose")
                      [lit "-f", w.DockerComposeFile, lit "ps"]) (some e)],
          err := some (Wrap e (w.SystemError (lit "failed to get Meshery status"))) })
    (hUp : ∀ cfg0 cfg ctx o, w.GetMesheryCtl = Except.ok cfg0 →
      w.SetCurrentContext cfg0 tc = Except.ok (cfg, ctx) →
      ctx.Platform = lit "docker" →
      w.Output (lit "docker-compose") [lit "-f", w.DockerComposeFile, lit "ps"] = Except.ok o →
      lit "meshery" <:+: o →
      P { trace := [Event.call Call.GetMesheryCtl none,
                    Event.call (Call.SetCurrentContext tc) none,
                    Event.call (Call.Output (lit "docker-compose")
                      [lit "-f", w.DockerComposeFile, lit "ps"]) none,
                    Event.Info o, Event.Info (endpointMessage cfg)],
          err := none })
    (hDown : ∀ cfg0 cfg ctx o, w.GetMesheryCtl = Except.ok cfg0 →
      w.SetCurrentContext cfg0 tc = Except.ok (cfg, ctx) →
      ctx.Platform = lit "docker" →
      w.Output (lit "docker-compose") [lit "-f", w.DockerComposeFile, lit "ps"] = Except.ok o →
      ¬ lit "meshery" <:+: o →
      P { trace := [Event.call Call.GetMesheryCtl none,
                    Event.call (Call.SetCurrentContext tc) none,
                    Event.call (Call.Output (lit "docker-compose")
                      [lit "-f", w.DockerComposeFile, lit "ps"]) none,
                    Event.Info notRunningMessage],
          err := none })
    (hNew : ∀ cfg0 cfg ctx e, w.GetMesheryCtl = Except.ok cfg0 →
      w.SetCurrentContext cfg0 tc = Except.ok (cfg, ctx) →
      ctx.Platform = lit "kubernetes" →
      w.New (lit "") = Except.error e →
      P { trace := [Event.call Call.GetMesheryCtl none,
                    Event.call (Call.SetCurrentContext tc) none,
                    Event.call (Call.New (lit "")) (some e)],
          err := some e })
    (hDeployments : ∀ cfg0 cfg ctx e, w.GetMesheryCtl = Except.ok cfg0 →
      w.SetCurrentContext cfg0 tc = Except.ok (cfg, ctx) →
      ctx.Platform = lit "kubernetes" →
      w.New (lit "") = Except.ok () →
      w.ListDeployments w.MesheryNamespace = Except.error e →
      P { trace := [Event.call Call.GetMesheryCtl none,
                    Event.call (Call.SetCurrentContext tc) none,
                    Event.call (Call.New (lit "")) none,
                    Event.call (Call.ListDeployments w.MesheryNamespace) (some e)],
          err := some e })
    (hStatefulSets : ∀ cfg0 cfg ctx ds e, w.GetMesheryCtl = Except.ok cfg0 →
      w.SetCurrentContext cfg0 tc = Except.ok (cfg, ctx) →
      ctx.Platform = lit "kubernetes" →
      w.New (lit "") = Except.ok () →
      w.ListDeployments w.MesheryNamespace = Except.ok ds →
      w.ListStatefulSets w.MesheryNamespace = Except.error e →
      P { trace := [Event.call Call.GetMesheryCtl none,
                    Event.call (Call.SetCurrentContext tc) none,
                    Event.call (Call.New (lit "")) none,
                    Event.call (Call.ListDeployments w.MesheryNamespace) none,
                    Event.call (Call.ListStatefulSets w.MesheryNamespace) (some e)],
          err := some e })
    (hTable : ∀ cfg0 cfg ctx ds ss, w.GetMesheryCtl = Except.ok cfg0 →
      w.SetCurrentContext cfg0 tc = Except.ok (cfg, ctx) →
      ctx.Platform = lit "kubernetes" →
      w.New (lit "") = Except.ok () →
      w.ListDeployments w.MesheryNamespace = Except.ok ds →
      w.ListStatefulSets w.MesheryNamespace = Except.ok ss →
      P { trace := [Event.call Call.GetMesheryCtl none,
                    Event.call (Call.SetCurrentContext tc) none,
                    Event.call (Call.New (lit "")) none,
                    Event.call (Call.ListDeployments w.MesheryNamespace) none,
                    Event.call (Call.ListStatefulSets w.MesheryNamespace) none,
                    Event.PrintToTable tableHeader (tableData w ds ss),
                    Event.Info (endpointMessage cfg)],
          err := none }) :
    P (RunE w tc) := by
  refine RunE_cases w tc P hConfig hContext ?_
  intro cfg0 cfg ctx h0 h1
  have hne : lit "docker" ≠ lit "kubernetes" := by decide
  by_cases hd : ctx.Platform = lit "docker"
  · rw [if_pos hd]
    refine dockerCase_cases w cfg
      (fun r => P { trace := [Event.call Call.GetMesheryCtl none,
                      Event.call (Call.SetCurrentContext tc) none] ++ r.trace,
                    err := r.err }) ?_ ?_ ?_
    · intro e he; exact hFail cfg0 cfg ctx e h0 h1 hd he
    · intro o ho hm; exact hUp cfg0 cfg ctx o h0 h1 hd ho hm
    · intro o ho hm; exact hDown cfg0 cfg ctx o h0 h1 hd ho hm
  · rw [if_neg hd]
    by_cases hk : ctx.Platform = lit "kubernetes"
    · rw [if_pos hk]
      refine kubernetesCase_cases w cfg
        (fun r => P { trace := [Event.call Call.GetMesheryCtl none,
                        Event.call (Call.SetCurrentContext tc) none] ++ r.trace,
                      err := r.err }) ?_ ?_ ?_ ?_
      · intro e he; exact hNew cfg0 cfg ctx e h0 h1 hk he
      · intro e hn he; exact hDeployments cfg0 cfg ctx e h0 h1 hk hn he
      · intro ds e hn hl he; exact hStatefulSets cfg0 cfg ctx ds e h0 h1 hk hn hl he
      · intro ds ss hn hl hs; exact hTable cfg0 cfg ctx ds ss h0 h1 hk hn hl hs
    · rw [if_neg hk]
      exact hOther cfg0 cfg ctx h0 h1 hd hk

theorem zipWith_range_getElem? {α β : Type} (f : Nat → α → β) (l : List α) :
    ∀ (a i : Nat) (h : i < l.length),
      (List.zipWith f (List.range' a l.length) l)[i]? = some (f (a + i) l[i]) := by
  induction l with
  | nil => intro a i h; simp at h
  | cons x l ih =>
    intro a i h
    cases i with
    | zero => simp [List.range'_succ]
    | succ i =>
      have hi : i < l.length := by simpa using h
      have := ih (a + 1) i hi
      simp only [List.length_cons, List.range'_succ, List.zipWith_cons_cons,
        List.getElem?_cons_succ, List.getElem_cons_succ, this]
      congr 2
      omega

theorem zipWith_range_forall {α β : Type} (f : Nat → α → β) (Q : β → Prop)
    (hQ : ∀ k x, Q (f k x)) (l : List α) :
    ∀ a, ∀ r ∈ List.zipWith f (List.range' a l.length) l, Q r := by
  induction l with
  | nil => intro a r hr; simp at hr
  | cons x l ih =>
    intro a r hr
    simp only [List.length_cons, List.range'_succ, List.zipWith_cons_cons, List.mem_cons] at hr
    rcases hr with hr | hr
    · rw [hr]; exact hQ a x
    · exact ih (a + 1) r hr

theorem zipWith_range_map {α β γ : Type} (f : Nat → α → β) (g : β → γ) (name : α → γ)
    (hg : ∀ k x, g (f k x) = name x) (l : List α) :
    ∀ a, (List.zipWith f (List.range' a l.length) l).map g = l.map name := by
  induction l with
  | nil => intro a; simp
  | cons x l ih =>
    intro a
    simp only [List.length_cons, List.range'_succ, List.zipWith_cons_cons, List.map_cons,
      hg, ih (a + 1)]

theorem tableData_length (w : World) (ds : List Deployment) (ss : List StatefulSet) :
    (tableData w ds ss).length = ds.length + ss.length := by
  simp [tableData]

/-! ## The claims -/

/-- C1: on the docker platform, when the status-listing process returns the
output `o` successfully, the handler returns no error; if `o` does not
contain the bytes of "meshery" its only output is the not-running message
(so the endpoint is not logged), and if `o` contains them its output is `o`
unchanged followed by "Meshery endpoint is " plus the configured endpoint:
the Endpoint of the context that the configuration's map of contexts holds
under the name of the current context (the empty string of the zero value
when the map has no such name). -/
theorem docker_status_by_marker (w : World) (tc : GoString)
    (cfg0 cfg : MesheryCtlConfig) (ctx : Context) (o : GoString)
    (hcfg : w.GetMesheryCtl = Except.ok cfg0)
    (hctx : w.SetCurrentContext cfg0 tc = Except.ok (cfg, ctx))
    (hplat : ctx.Platform = lit "docker")
    (hout : w.Output (lit "docker-compose") [lit "-f", w.DockerComposeFile, lit "ps"]
              = Except.ok o) :
    (RunE w tc).err = none ∧
    (¬ lit "meshery" <:+: o →
      outputs (RunE w tc).trace
        = [Event.Info
            (lit "Meshery is not running, run `mesheryctl system start` to start Meshery")]) ∧
    (lit "meshery" <:+: o →
      (∀ c : Context, cfg.Contexts.lookup cfg.CurrentContext = some c →
        outputs (RunE w tc).trace
          = [Event.Info o, Event.Info (lit "Meshery endpoint is " ++ c.Endpoint)]) ∧
      (cfg.Contexts.lookup cfg.CurrentContext = none →
        outputs (RunE w tc).trace
          = [Event.Info o, Event.Info (lit "Meshery endpoint is ")])) := by
  have hne : lit "docker" ≠ lit "kubernetes" := by decide
  have hsome : ∀ c : Context, cfg.Contexts.lookup cfg.CurrentContext = some c →
      cfg.endpoint = c.Endpoint := by
    intro c hc
    simp [MesheryCtlConfig.endpoint, MesheryCtlConfig.index, hc]
  have hnone : cfg.Contexts.lookup cfg.CurrentContext = none → cfg.endpoint = [] := by
    intro hc
    simp [MesheryCtlConfig.endpoint, MesheryCtlConfig.index, hc]
  have key : (RunE w tc).err = none ∧
      (¬ lit "meshery" <:+: o →
        outputs (RunE w tc).trace
          = [Event.Info
              (lit "Meshery is not running, run `mesheryctl system start` to start Meshery")]) ∧
      (lit "meshery" <:+: o →
        outputs (RunE w tc).trace
          = [Event.Info o, Event.Info (lit "Meshery endpoint is " ++ cfg.endpoint)]) := by
    refine RunE_paths w tc
      (fun r => r.err = none ∧
        (¬ lit "meshery" <:+: o →
          outputs r.trace
            = [Event.Info
                (lit "Meshery is not running, run `mesheryctl system start` to start Meshery")]) ∧
        (lit "meshery" <:+: o →
          outputs r.trace
            = [Event.Info o, Event.Info (lit "Meshery endpoint is " ++ cfg.endpoint)]))
      ?_ ?_ ?_ ?_ ?_ ?_ ?_ ?_ ?_ ?_
    all_goals intros
    all_goals simp_all [outputs, Event.isOutput, notRunningMessage, endpointMessage]
  refine ⟨key.1, key.2.1, fun hm => ⟨?_, ?_⟩⟩
  · intro c hc
    rw [key.2.2 hm, hsome c hc]
  · intro hc
    rw [key.2.2 hm, hnone hc, List.append_nil]

/-- Witness of C1: the sample world on its docker context, where the process
output names a meshery container and the current context "local" has the
endpoint http://localhost:9081. -/
theorem docker_status_by_marker_witness :
    (RunE sampleWorld []).err = none ∧
    outputs (RunE sampleWorld []).trace
      = [Event.Info (lit "meshery_meshery_1   Up   0.0.0.0:9081->8080/tcp"),
         Event.Info (lit "Meshery endpoint is http://localhost:9081")] :=
  have h := docker_status_by_marker sampleWorld [] sampleConfig sampleConfig
    { Endpoint := lit "http://localhost:9081", Platform := lit "docker" }
    (lit "meshery_meshery_1   Up   0.0.0.0:9081->8080/tcp") rfl rfl rfl rfl
  ⟨h.1, (h.2.2 (by decide)).1
    { Endpoint := lit "http://localhost:9081", Platform := lit "docker" } rfl⟩

/-- C2: for every deployment and every stateful set, whatever the signed
32-bit values of ReadyReplicas and Replicas, the second field of its row is
the decimal rendering of ReadyReplicas, a slash, and the decimal rendering of
Replicas, and reading that field back gives the pair (ready, total). -/
theorem ready_field_is_ready_slash_total (w : World) (tick : Nat) :
    (∀ d : Deployment,
      (deploymentRow w tick d)[1]?
        = some (decimal d.Status.ReadyReplicas.val ++ lit "/" ++ decimal d.Status.Replicas.val)
      ∧ ∀ field, (deploymentRow w tick d)[1]? = some field →
          readReady field = (d.Status.ReadyReplicas.val, d.Status.Replicas.val)) ∧
    (∀ s : StatefulSet,
      (statefulsetRow w tick s)[1]?
        = some (decimal s.Status.ReadyReplicas.val ++ lit "/" ++ decimal s.Status.Replicas.val)
      ∧ ∀ field, (statefulsetRow w tick s)[1]? = some field →
          readReady field = (s.Status.ReadyReplicas.val, s.Status.Replicas.val)) := by
  have hslash : lit "/" = [47] := rfl
  refine ⟨fun d => ⟨?_, ?_⟩, fun s => ⟨?_, ?_⟩⟩
  · simp [deploymentRow, Sprintf_ready, hslash]
  · intro field hf
    simp only [deploymentRow, Sprintf_ready, List.getElem?_cons_succ, List.getElem?_cons_zero,
      Option.some.injEq] at hf
    rw [← hf, readReady_decimal]
  · simp [statefulsetRow, Sprintf_ready, hslash]
  · intro field hf
    simp only [statefulsetRow, Sprintf_ready, List.getElem?_cons_succ, List.getElem?_cons_zero,
      Option.some.injEq] at hf
    rw [← hf, readReady_decimal]

/-- C3: on the kubernetes platform, when both list calls succeed with the
deployments `ds` and the stateful sets `ss`, exactly one table is printed; its
header is Name, Ready, Up-to-date, Available, Age; it has `ds.length +
ss.length` rows, the deployments' rows first in the order of `ds`, then the
stateful sets' rows in the order of `ss`; every row has five fields and its
first field is the name of its resource. -/
theorem kubernetes_table_rows (w : World) (tc : GoString)
    (cfg0 cfg : MesheryCtlConfig) (ctx : Context)
    (ds : List Deployment) (ss : List StatefulSet)
    (hcfg : w.GetMesheryCtl = Except.ok cfg0)
    (hctx : w.SetCurrentContext cfg0 tc = Except.ok (cfg, ctx))
    (hplat : ctx.Platform = lit "kubernetes")
    (hnew : w.New (lit "") = Except.ok ())
    (hds : w.ListDeployments w.MesheryNamespace = Except.ok ds)
    (hss : w.ListStatefulSets w.MesheryNamespace = Except.ok ss) :
    tables (RunE w tc).trace
      = [([lit "Name", lit "Ready", lit "Up-to-date", lit "Available", lit "Age"],
          tableData w ds ss)] ∧
    (tableData w ds ss).length = ds.length + ss.length ∧
    (∀ i (h : i < ds.length),
      (tableData w ds ss)[i]? = some (deploymentRow w i ds[i])) ∧
    (∀ j (h : j < ss.length),
      (tableData w ds ss)[ds.length + j]? = some (statefulsetRow w (ds.length + j) ss[j])) ∧
    (tableData w ds ss).map List.head?
      = ds.map (fun d => some d.Name) ++ ss.map (fun s => some s.Name) ∧
    (∀ row ∈ tableData w ds ss, row.length = 5) := by
  have hne : lit "docker" ≠ lit "kubernetes" := by decide
  refine ⟨?_, tableData_length w ds ss, ?_, ?_, ?_, ?_⟩
  · refine RunE_paths w tc
      (fun r => tables r.trace
        = [([lit "Name", lit "Ready", lit "Up-to-date", lit "Available", lit "Age"],
            tableData w ds ss)])
      ?_ ?_ ?_ ?_ ?_ ?_ ?_ ?_ ?_ ?_
    all_goals intros
    all_goals simp_all [tables, tableHeader]
  · intro i h
    have h1 := zipWith_range_getElem? (deploymentRow w) ds 0 i h
    rw [Nat.zero_add] at h1
    rw [tableData, List.getElem?_append_left (by simpa using h), h1]
  · intro j h
    have h1 := zipWith_range_getElem? (statefulsetRow w) ss ds.length j h
    rw [tableData, List.getElem?_append_right (by simp)]
    simpa using h1
  · rw [tableData, List.map_append,
      zipWith_range_map (deploymentRow w) List.head? (fun d => some d.Name) (fun _ _ => rfl),
      zipWith_range_map (statefulsetRow w) List.head? (fun s => some s.Name) (fun _ _ => rfl)]
  · intro row hrow
    rw [tableData, List.mem_append] at hrow
    rcases hrow with hrow | hrow
    · exact zipWith_range_forall (deploymentRow w) (fun r => r.length = 5) (fun _ _ => rfl)
        ds 0 row hrow
    · exact zipWith_range_forall (statefulsetRow w) (fun r => r.length = 5) (fun _ _ => rfl)
        ss ds.length row hrow

/-- Witness of C3: the sample world on its kubernetes context, with two
deployments and one stateful set. -/
theorem kubernetes_table_rows_witness :
    tables (RunE sampleWorld (lit "cluster")).trace
      = [([lit "Name", lit "Ready", lit "Up-to-date", lit "Available", lit "Age"],
          tableData sampleWorld [sampleMeshery, sampleIstio] [sampleBroker])] ∧
    (tableData sampleWorld [sampleMeshery, sampleIstio] [sampleBroker]).length = 2 + 1 :=
  have h := kubernetes_table_rows sampleWorld (lit "cluster") sampleConfig
    { sampleConfig with CurrentContext := lit "cluster" }
    { Endpoint := lit "http://10.0.0.7:9081", Platform := lit "kubernetes" }
    [sampleMeshery, sampleIstio] [sampleBroker] rfl rfl rfl rfl rfl rfl
  ⟨h.1, h.2.1⟩

/-- C8: in each row the third field is the decimal rendering of
UpdatedReplicas, and the fourth field is the decimal rendering of
AvailableReplicas for a deployment but of CurrentReplicas for a stateful set;
two resources that agree on these status fields get the same two columns,
whatever the rest of the resource, the world and the clock are. -/
theorem updated_and_available_fields (w : World) (tick : Nat) :
    (∀ d : Deployment,
      (deploymentRow w tick d)[2]? = some (decimal d.Status.UpdatedReplicas.val) ∧
      (deploymentRow w tick d)[3]? = some (decimal d.Status.AvailableReplicas.val)) ∧
    (∀ s : StatefulSet,
      (statefulsetRow w tick s)[2]? = some (decimal s.Status.UpdatedReplicas.val) ∧
      (statefulsetRow w tick s)[3]? = some (decimal s.Status.CurrentReplicas.val)) ∧
    (∀ (w1 : World) (tick1 : Nat) (d d1 : Deployment),
      d.Status.UpdatedReplicas = d1.Status.UpdatedReplicas →
      d.Status.AvailableReplicas = d1.Status.AvailableReplicas →
      (deploymentRow w tick d)[2]? = (deploymentRow w1 tick1 d1)[2]? ∧
      (deploymentRow w tick d)[3]? = (deploymentRow w1 tick1 d1)[3]?) ∧
    (∀ (w1 : World) (tick1 : Nat) (s s1 : StatefulSet),
      s.Status.UpdatedReplicas = s1.Status.UpdatedReplicas →
      s.Status.CurrentReplicas = s1.Status.CurrentReplicas →
      (statefulsetRow w tick s)[2]? = (statefulsetRow w1 tick1 s1)[2]? ∧
      (statefulsetRow w tick s)[3]? = (statefulsetRow w1 tick1 s1)[3]?) := by
  refine ⟨fun d => ?_, fun s => ?_, ?_, ?_⟩
  · simp [deploymentRow, Sprintf_d]
  · simp [statefulsetRow, Sprintf_d]
  · intro w1 tick1 d d1 h1 h2
    simp [deploymentRow, h1, h2]
  · intro w1 tick1 s s1 h1 h2
    simp [statefulsetRow, h1, h2]

/-- C4, as the code has it: a failure of the configuration load is returned
wrapped with the message "error processing config", and a failure of the
docker-compose process wrapped with the system-error message for "failed to
get Meshery status", so that the text of the returned error is that message,
a colon and the text of the underlying error; a failure of the context
resolution, of the client construction or of either list call is returned as
the underlying error itself. -/
theorem failure_wrapped_or_returned (w : World) (tc : GoString) (c : Call) (e : GoError)
    (h : Event.call c (some e) ∈ (RunE w tc).trace) :
    (c.collaborator = Collaborator.GetMesheryCtl →
      (RunE w tc).err = some (Wrap e (lit "error processing config")) ∧
      (Wrap e (lit "error processing config")).Error
        = lit "error processing config: " ++ e.Error) ∧
    (c.collaborator = Collaborator.Output →
      (RunE w tc).err = some (Wrap e (w.SystemError (lit "failed to get Meshery status"))) ∧
      (Wrap e (w.SystemError (lit "failed to get Meshery status"))).Error
        = w.SystemError (lit "failed to get Meshery status") ++ lit ": " ++ e.Error) ∧
    (c.collaborator = Collaborator.SetCurrentContext ∨ c.collaborator = Collaborator.New ∨
      c.collaborator = Collaborator.ListDeployments ∨
      c.collaborator = Collaborator.ListStatefulSets →
      (RunE w tc).err = some e) := by
  have htext : ∀ e1 : GoError, (Wrap e1 (lit "error processing config")).Error
      = lit "error processing config: " ++ e1.Error := fun _ => rfl
  have htext2 : ∀ e1 : GoError,
      (Wrap e1 (w.SystemError (lit "failed to get Meshery status"))).Error
        = w.SystemError (lit "failed to get Meshery status") ++ lit ": " ++ e1.Error :=
    fun _ => rfl
  revert h
  refine RunE_paths w tc
    (fun r => Event.call c (some e) ∈ r.trace →
      (c.collaborator = Collaborator.GetMesheryCtl →
        r.err = some (Wrap e (lit "error processing config")) ∧
        (Wrap e (lit "error processing config")).Error
          = lit "error processing config: " ++ e.Error) ∧
      (c.collaborator = Collaborator.Output →
        r.err = some (Wrap e (w.SystemError (lit "failed to get Meshery status"))) ∧
        (Wrap e (w.SystemError (lit "failed to get Meshery status"))).Error
          = w.SystemError (lit "failed to get Meshery status") ++ lit ": " ++ e.Error) ∧
      (c.collaborator = Collaborator.SetCurrentContext ∨ c.collaborator = Collaborator.New ∨
        c.collaborator = Collaborator.ListDeployments ∨
        c.collaborator = Collaborator.ListStatefulSets →
        r.err = some e))
    ?_ ?_ ?_ ?_ ?_ ?_ ?_ ?_ ?_ ?_
  all_goals intros
  all_goals simp_all [Call.collaborator]

/-- Witness of C4 as amended: the failing docker-compose process of the
sample world. -/
theorem failure_wrapped_or_returned_witness :
    (RunE composeFailsWorld []).err
      = some (Wrap (GoError.root (lit "exit status 1"))
          (composeFailsWorld.SystemError (lit "failed to get Meshery status"))) :=
  ((failure_wrapped_or_returned composeFailsWorld []
    (Call.Output (lit "docker-compose") [lit "-f", composeFailsWorld.DockerComposeFile, lit "ps"])
    (GoError.root (lit "exit status 1")) (by decide)).2.1 rfl).1

/-- C4 fails as stated: when the context resolution fails, the handler
returns the underlying error itself, under no message. -/
theorem context_failure_not_wrapped :
    Event.call (Call.SetCurrentContext (lit "nope"))
        (some (GoError.root (lit "context does not exist")))
      ∈ (RunE sampleWorld (lit "nope")).trace ∧
    (RunE sampleWorld (lit "nope")).err = some (GoError.root (lit "context does not exist")) ∧
    ¬ ∃ message, (RunE sampleWorld (lit "nope")).err
        = some (Wrap (GoError.root (lit "context does not exist")) message) := by
  have herr : (RunE sampleWorld (lit "nope")).err
      = some (GoError.root (lit "context does not exist")) := by decide
  refine ⟨by decide, herr, ?_⟩
  rintro ⟨message, hm⟩
  rw [herr] at hm
  simp [Wrap] at hm

/-- C5, as the code has it: when a collaborator call of the handler fails
with the error `e`, the handler returns a non-nil error, which is `e` itself
or `e` under one message, so the cause is neither replaced nor dropped: the
root cause of the returned error is the root cause of `e`, and it is `e`
itself when `e` has no cause of its own. -/
theorem failure_cause_preserved (w : World) (tc : GoString) (c : Call) (e : GoError)
    (h : Event.call c (some e) ∈ (RunE w tc).trace) :
    ∃ r, (RunE w tc).err = some r ∧
      (r = e ∨ ∃ message, r = GoError.withMessage e message) ∧
      Cause r = Cause e ∧
      (∀ msg, e = GoError.root msg → Cause r = e) := by
  have hc : ∀ message, Cause (Wrap e message) = Cause e := fun _ => rfl
  have hroot : ∀ msg, e = GoError.root msg → Cause e = e := by
    intro msg hm; rw [hm]; rfl
  revert h
  refine RunE_paths w tc
    (fun o => Event.call c (some e) ∈ o.trace →
      ∃ r, o.err = some r ∧
        (r = e ∨ ∃ message, r = GoError.withMessage e message) ∧
        Cause r = Cause e ∧
        (∀ msg, e = GoError.root msg → Cause r = e))
    ?_ ?_ ?_ ?_ ?_ ?_ ?_ ?_ ?_ ?_
  · intro e1 _ hmem
    have he : e1 = e := by simp at hmem; exact hmem.2.symm
    subst he
    exact ⟨_, rfl, Or.inr ⟨_, rfl⟩, hc _, fun msg hm => (hc _).trans (hroot msg hm)⟩
  · intro _ e1 _ _ hmem
    have he : e1 = e := by simp at hmem; exact hmem.2.symm
    subst he
    exact ⟨_, rfl, Or.inl rfl, rfl, hroot⟩
  · intro _ _ _ _ _ _ _ hmem
    simp at hmem
  · intro _ _ _ e1 _ _ _ _ hmem
    have he : e1 = e := by simp at hmem; exact hmem.2.symm
    subst he
    exact ⟨_, rfl, Or.inr ⟨_, rfl⟩, hc _, fun msg hm => (hc _).trans (hroot msg hm)⟩
  · intro _ _ _ _ _ _ _ _ _ hmem
    simp at hmem
  · intro _ _ _ _ _ _ _ _ _ hmem
    simp at hmem
  · intro _ _ _ e1 _ _ _ _ hmem
    have he : e1 = e := by simp at hmem; exact hmem.2.symm
    subst he
    exact ⟨_, rfl, Or.inl rfl, rfl, hroot⟩
  · intro _ _ _ e1 _ _ _ _ _ hmem
    have he : e1 = e := by simp at hmem; exact hmem.2.symm
    subst he
    exact ⟨_, rfl, Or.inl rfl, rfl, hroot⟩
  · intro _ _ _ _ e1 _ _ _ _ _ _ hmem
    have he : e1 = e := by simp at hmem; exact hmem.2.symm
    subst he
    exact ⟨_, rfl, Or.inl rfl, rfl, hroot⟩
  · intro _ _ _ _ _ _ _ _ _ _ _ hmem
    simp at hmem

/-- Witness of C5: the sample world without a cluster client, on its
kubernetes context. -/
theorem failure_cause_preserved_witness :
    ∃ r, (RunE noClientWorld (lit "cluster")).err = some r ∧
      (r = GoError.root (lit "no kubeconfig") ∨
        ∃ message, r = GoError.withMessage (GoError.root (lit "no kubeconfig")) message) ∧
      Cause r = Cause (GoError.root (lit "no kubeconfig")) ∧
      (∀ msg, GoError.root (lit "no kubeconfig") = GoError.root msg →
        Cause r = GoError.root (lit "no kubeconfig")) :=
  failure_cause_preserved noClientWorld (lit "cluster") (Call.New (lit ""))
    (GoError.root (lit "no kubeconfig")) (by decide)

/-- C5 fails as stated: when the configuration load fails with an error `e`
that already wraps a root error, the handler returns `e` under its own
message, and the root cause of the returned error is the root error inside
`e`, not `e`. -/
theorem wrapped_failure_root_cause_differs :
    Event.call Call.GetMesheryCtl
        (some (GoError.withMessage (GoError.root (lit "no such file")) (lit "reading config")))
      ∈ (RunE wrappedConfigFailWorld []).trace ∧
    (RunE wrappedConfigFailWorld []).err
      = some (Wrap
          (GoError.withMessage (GoError.root (lit "no such file")) (lit "reading config"))
          (lit "error processing config")) ∧
    Cause (Wrap
        (GoError.withMessage (GoError.root (lit "no such file")) (lit "reading config"))
        (lit "error processing config"))
      = GoError.root (lit "no such file") ∧
    ¬ ∃ r, (RunE wrappedConfigFailWorld []).err = some r ∧
        Cause r
          = GoError.withMessage (GoError.root (lit "no such file")) (lit "reading config") := by
  have herr : (RunE wrappedConfigFailWorld []).err
      = some (Wrap
          (GoError.withMessage (GoError.root (lit "no such file")) (lit "reading config"))
          (lit "error processing config")) := by decide
  refine ⟨by decide, herr, rfl, ?_⟩
  rintro ⟨r, hr, hc⟩
  rw [herr] at hr
  have hr1 : r = Wrap
      (GoError.withMessage (GoError.root (lit "no such file")) (lit "reading config"))
      (lit "error processing config") := (Option.some.inj hr).symm
  rw [hr1] at hc
  simp [Wrap, Cause] at hc

/-- C7, as the code has it: when the platform of the resolved context is
"docker" or "kubernetes" and the handler returns no error, it has written
output (a log line or a table). -/
theorem nil_return_prints_on_known_platform (w : World) (tc : GoString)
    (cfg0 cfg : MesheryCtlConfig) (ctx : Context)
    (hcfg : w.GetMesheryCtl = Except.ok cfg0)
    (hctx : w.SetCurrentContext cfg0 tc = Except.ok (cfg, ctx))
    (hplat : ctx.Platform = lit "docker" ∨ ctx.Platform = lit "kubernetes")
    (hnil : (RunE w tc).err = none) :
    outputs (RunE w tc).trace ≠ [] := by
  have hne : lit "docker" ≠ lit "kubernetes" := by decide
  revert hnil
  refine RunE_paths w tc (fun r => r.err = none → outputs r.trace ≠ [])
    ?_ ?_ ?_ ?_ ?_ ?_ ?_ ?_ ?_ ?_
  all_goals intros
  all_goals simp_all [outputs, Event.isOutput]

/-- Witness of C7 as amended: the sample world on its kubernetes context. -/
theorem nil_return_prints_on_known_platform_witness :
    outputs (RunE sampleWorld (lit "cluster")).trace ≠ [] :=
  nil_return_prints_on_known_platform sampleWorld (lit "cluster") sampleConfig
    { sampleConfig with CurrentContext := lit "cluster" }
    { Endpoint := lit "http://10.0.0.7:9081", Platform := lit "kubernetes" }
    rfl rfl (Or.inr rfl) (by decide)

/-- C7 fails as stated: on a resolved context whose platform is neither
"docker" nor "kubernetes" (here "Kubernetes") the handler returns no error
and has written nothing. -/
theorem unknown_platform_returns_nil_silently :
    sampleWorld.GetMesheryCtl = Except.ok sampleConfig ∧
    sampleWorld.SetCurrentContext sampleConfig (lit "typo")
      = Except.ok ({ sampleConfig with CurrentContext := lit "typo" },
          { Endpoint := lit "http://10.0.0.7:9081", Platform := lit "Kubernetes" }) ∧
    (RunE sampleWorld (lit "typo")).err = none ∧
    outputs (RunE sampleWorld (lit "typo")).trace = [] :=
  ⟨rfl, rfl, by decide, by decide⟩

/-- C9: nothing is retried. In one run every collaborator is called at most
once: the docker-compose process at most once, the deployments list and the
stateful sets list at most once each; the Kubernetes calls come in the order
client, deployments, stateful sets; if the client construction fails no list
call is made, and if the deployments list fails the stateful sets list is not
called. -/
theorem no_collaborator_retried (w : World) (tc : GoString) :
    (calls (RunE w tc).trace).Nodup ∧
    (calls (RunE w tc).trace).count Collaborator.Output ≤ 1 ∧
    (calls (RunE w tc).trace).count Collaborator.ListDeployments ≤ 1 ∧
    (calls (RunE w tc).trace).count Collaborator.ListStatefulSets ≤ 1 ∧
    (calls (RunE w tc).trace).filter Collaborator.isKubernetes
      <+: [Collaborator.New, Collaborator.ListDeployments, Collaborator.ListStatefulSets] ∧
    (Collaborator.New ∈ failedCalls (RunE w tc).trace →
      Collaborator.ListDeployments ∉ calls (RunE w tc).trace ∧
      Collaborator.ListStatefulSets ∉ calls (RunE w tc).trace) ∧
    (Collaborator.ListDeployments ∈ failedCalls (RunE w tc).trace →
      Collaborator.ListStatefulSets ∉ calls (RunE w tc).trace) := by
  refine RunE_paths w tc
    (fun r =>
      (calls r.trace).Nodup ∧
      (calls r.trace).count Collaborator.Output ≤ 1 ∧
      (calls r.trace).count Collaborator.ListDeployments ≤ 1 ∧
      (calls r.trace).count Collaborator.ListStatefulSets ≤ 1 ∧
      (calls r.trace).filter Collaborator.isKubernetes
        <+: [Collaborator.New, Collaborator.ListDeployments, Collaborator.ListStatefulSets] ∧
      (Collaborator.New ∈ failedCalls r.trace →
        Collaborator.ListDeployments ∉ calls r.trace ∧
        Collaborator.ListStatefulSets ∉ calls r.trace) ∧
      (Collaborator.ListDeployments ∈ failedCalls r.trace →
        Collaborator.ListStatefulSets ∉ calls r.trace))
    ?_ ?_ ?_ ?_ ?_ ?_ ?_ ?_ ?_ ?_
  all_goals intros
  all_goals simp only [calls, failedCalls, Call.collaborator, List.filterMap_cons,
    List.filterMap_nil]
  all_goals decide

/-- C10: whenever the handler returns an error it has written no output at
all: no log line and no table. -/
theorem error_return_prints_nothing (w : World) (tc : GoString)
    (h : (RunE w tc).err ≠ none) :
    outputs (RunE w tc).trace = [] := by
  revert h
  refine RunE_paths w tc (fun r => r.err ≠ none → outputs r.trace = [])
    ?_ ?_ ?_ ?_ ?_ ?_ ?_ ?_ ?_ ?_
  all_goals intros
  all_goals simp_all [outputs, Event.isOutput]

/-- Witness of C10: in the sample world whose stateful sets list fails, the
deployments were listed and their rows built, and nothing is printed. -/
theorem error_return_prints_nothing_witness :
    (RunE statefulSetsFailWorld (lit "cluster")).err
      = some (GoError.root (lit "connection refused")) ∧
    calls (RunE statefulSetsFailWorld (lit "cluster")).trace
      = [Collaborator.GetMesheryCtl, Collaborator.SetCurrentContext, Collaborator.New,
         Collaborator.ListDeployments, Collaborator.ListStatefulSets] ∧
    outputs (RunE statefulSetsFailWorld (lit "cluster")).trace = [] :=
  ⟨by decide, by decide,
    error_return_prints_nothing statefulSetsFailWorld (lit "cluster") (by decide)⟩

end Mesheryctl
